import Mathlib

/-!
Shallow embedding of the unsafer crate (src/src/shared_box.rs, src/src/pointers.rs,
src/src/assume.rs and src/tests/tests.rs) together with theorems settling the
specification claims.

Memory is modelled as a heap mapping addresses (Nat) to optionally-allocated values,
with a per-address deallocation counter so that double frees are observable.
Rust panics in the checked (debug) build are modelled with Except: an error value
carries the panic message.
-/

namespace Unsafer

/-- A heap of values of type T: mem gives the value stored at an address (none when
the address is unallocated), freed counts how many times each address has been
deallocated, and next is the next fresh address handed out by the allocator
(kept positive so allocations are non-null). -/
structure Heap (T : Type) where
  mem : Nat → Option T
  freed : Nat → Nat
  next : Nat

/-- Raw-pointer store: overwrite the cell at address a. -/
def Heap.write {T : Type} (h : Heap T) (a : Nat) (v : T) : Heap T :=
  { h with mem := fun x => if x = a then some v else h.mem x }

/-- Deallocation: the cell becomes unallocated and its free counter is bumped. -/
def Heap.free {T : Type} (h : Heap T) (a : Nat) : Heap T :=
  { h with
    mem := fun x => if x = a then none else h.mem x,
    freed := fun x => if x = a then h.freed x + 1 else h.freed x }

/-- The empty heap: nothing allocated, nothing freed, first address is 1. -/
def Heap.empty (T : Type) : Heap T :=
  { mem := fun _ => none, freed := fun _ => 0, next := 1 }

/-- An exclusively owned heap allocation, the model of Box of T: the owner of the
cell at address addr. -/
structure Box (T : Type) where
  addr : Nat

/-- Box allocation (Box.new v): stores v at a fresh address and returns the box. -/
def Box.new {T : Type} (h : Heap T) (v : T) : Box T × Heap T :=
  (⟨h.next⟩, { mem := fun x => if x = h.next then some v else h.mem x,
               freed := h.freed, next := h.next + 1 })

/-- Dereference of a box (the read performed by star-of-box). -/
def Box.deref {T : Type} (h : Heap T) (b : Box T) : Option T :=
  h.mem b.addr

/-- Dropping a Box deallocates its cell. -/
def Box.drop {T : Type} (h : Heap T) (b : Box T) : Heap T :=
  h.free b.addr

/-- From src/src/shared_box.rs: SharedBox of T holds a NonNull pointer (field data)
to the owned allocation. -/
structure SharedBox (T : Type) where
  data : Nat

/-- From the From impl in shared_box.rs lines 41-49: Box::into_raw hands the raw
address over; the heap is untouched. -/
def SharedBox.fromBox {T : Type} (x : Box T) : SharedBox T :=
  { data := x.addr }

/-- From shared_box.rs lines 54-57: as_ptr returns the raw address of the owned
allocation. -/
def SharedBox.as_ptr {T : Type} (s : SharedBox T) : Nat :=
  s.data

/-- From shared_box.rs lines 63-70: into_box rebuilds a Box from the raw address
(Box::from_raw) and forgets self, so the heap is untouched and the consumed
SharedBox will never run its drop code. Returns the box and the (unchanged)
heap. -/
def SharedBox.into_box {T : Type} (s : SharedBox T) (h : Heap T) : Box T × Heap T :=
  ({ addr := s.data }, h)

/-- From the Drop impl in shared_box.rs lines 73-80: drop rebuilds a Box from the
raw address and lets it deallocate the cell. -/
def SharedBox.drop {T : Type} (h : Heap T) (s : SharedBox T) : Heap T :=
  h.free s.data

/-- The increment structure of tests/tests.rs: inc reads the i32 behind the ctr
pointer, adds one and stores it back (a no-op on an unallocated cell never occurs
in the modelled runs). -/
def incThrough (h : Heap Int) (ctr : Nat) : Heap Int :=
  match h.mem ctr with
  | some v => h.write ctr (v + 1)
  | none => h

/-- The five pointer-like receivers of the Pointer trait in src/src/pointers.rs:
a raw mutable pointer, a raw const pointer, a NonNull pointer, a shared reference
to a MaybeUninit cell and a mutable reference to a MaybeUninit cell. Each carries
the address it points at. -/
inductive PtrKind (T : Type) where
  | mutPtr (addr : Nat)
  | constPtr (addr : Nat)
  | nonNull (addr : Nat)
  | refMaybeUninit (addr : Nat)
  | mutRefMaybeUninit (addr : Nat)

/-- The panic message of the as_mut_ptr impl for a shared MaybeUninit reference
(pointers.rs line 85). -/
def maybeUninitPanicMsg : String :=
  "Mutably accessing an immutable MaybeUninit would be unsound"

/-- Pointer::as_mut_ptr for each impl in pointers.rs: every impl returns its
address except the shared-MaybeUninit one, which panics (modelled as an error
carrying the panic message). The const-pointer impl silently casts the const
address to a mutable one (pointers.rs lines 64-66). -/
def Pointer.as_mut_ptr {T : Type} : PtrKind T → Except String Nat
  | .mutPtr a => .ok a
  | .constPtr a => .ok a
  | .nonNull a => .ok a
  | .refMaybeUninit _ => .error maybeUninitPanicMsg
  | .mutRefMaybeUninit a => .ok a

/-- Pointer::as_ptr for each impl in pointers.rs: always returns the address. -/
def Pointer.as_ptr {T : Type} : PtrKind T → Nat
  | .mutPtr a => a
  | .constPtr a => a
  | .nonNull a => a
  | .refMaybeUninit a => a
  | .mutRefMaybeUninit a => a

/-- The default method Pointer::write_with (pointers.rs lines 48-50):
self.as_mut_ptr().write(f()). The receiver call as_mut_ptr is evaluated first;
if it panics, the closure f is never evaluated and the heap is returned
unchanged alongside the panic message; otherwise f is evaluated and its result
written at the returned address. -/
def Pointer.write_with {T : Type} (p : PtrKind T) (f : Unit → T) (h : Heap T) :
    Except (String × Heap T) (Heap T) :=
  match Pointer.as_mut_ptr p with
  | .error msg => .error (msg, h)
  | .ok a => .ok (h.write a (f ()))

/-- Bind::get (pointers.rs lines 112-116): dereference for reading through
Pointer::as_ptr; reading an unallocated cell is undefined behaviour in the source
and surfaces as none here. -/
def Bind.get {T : Type} (h : Heap T) (p : PtrKind T) : Option T :=
  h.mem (Pointer.as_ptr p)

/-- The store performed through the mutable reference returned by Bind::get_mut
(pointers.rs lines 121-125): the address comes from Pointer::as_mut_ptr, which
may panic. -/
def Bind.setThrough {T : Type} (h : Heap T) (p : PtrKind T) (v : T) :
    Except (String × Heap T) (Heap T) :=
  match Pointer.as_mut_ptr p with
  | .error msg => .error (msg, h)
  | .ok a => .ok (h.write a v)

/-- swap_ptr from tests/tests.rs lines 40-48, over two raw mutable pointers:
temp = read a; write a (read b); write b temp. Both reads go through Bind::get
on the unchanged heap before the first write, exactly as in the source; a read
of an unallocated cell (undefined behaviour in the source) yields none. -/
def swap_ptr {T : Type} (h : Heap T) (a b : Nat) : Option (Heap T) := do
  let temp ← Bind.get h (PtrKind.mutPtr a)
  let vb ← Bind.get h (PtrKind.mutPtr b)
  let h1 := h.write a vb
  let h2 := h1.write b temp
  some h2

/-- assume from src/src/assume.rs lines 21-31, in the checked (debug) build:
evaluate the predicate once; debug_assert aborts with an assertion failure when
it is false, otherwise the call returns with no effect. -/
def assume (predicate : Unit → Bool) : Except String Unit :=
  let f := predicate ()
  if f then .ok () else .error "assertion failed: f"

/-- OptionAssume::assume_some (assume.rs lines 55-61) in the checked build:
debug_assert self.is_some aborts on None, otherwise the contained value is
returned. -/
def assume_some {T : Type} : Option T → Except String T
  | some this => .ok this
  | none => .error "assertion failed: self.is_some()"

/-- OptionAssume::assume_none (assume.rs lines 63-69) in the checked build:
debug_assert self.is_none aborts on Some, otherwise nothing happens. -/
def assume_none {T : Type} : Option T → Except String Unit
  | some _ => .error "assertion failed: self.is_none()"
  | none => .ok ()

/-- Claim C1: converting an exclusive Box holding v into a SharedBox and back via
into_box, with no intervening use of any address obtained from it, yields a Box
whose dereferenced contents equal v. -/
theorem C1_round_trip_identity (T : Type) (h : Heap T) (b : Box T) (v : T)
    (hv : Box.deref h b = some v) :
    Box.deref (SharedBox.into_box (SharedBox.fromBox b) h).2
      (SharedBox.into_box (SharedBox.fromBox b) h).1 = some v := by
  simpa [SharedBox.into_box, SharedBox.fromBox, Box.deref] using hv

/-- Witness for C1 at a concrete heap holding 42 at the freshly allocated
address. -/
theorem C1_round_trip_identity_witness :
    Box.deref (Box.new (Heap.empty Nat) 42).2 (Box.new (Heap.empty Nat) 42).1 = some 42 ∧
    Box.deref
      (SharedBox.into_box (SharedBox.fromBox (Box.new (Heap.empty Nat) 42).1)
        (Box.new (Heap.empty Nat) 42).2).2
      (SharedBox.into_box (SharedBox.fromBox (Box.new (Heap.empty Nat) 42).1)
        (Box.new (Heap.empty Nat) 42).2).1 = some 42 :=
  ⟨by decide,
   C1_round_trip_identity Nat (Box.new (Heap.empty Nat) 42).2
     (Box.new (Heap.empty Nat) 42).1 42 (by decide)⟩

/-- Claim C2: the owned allocation is freed exactly once on either path: dropping
the SharedBox without into_box frees it once; into_box itself frees nothing
(drop of the consumed SharedBox is suppressed by forget) and dropping the
returned Box then frees it once. -/
theorem C2_free_exactly_once (T : Type) (h : Heap T) (b : Box T)
    (hfree : h.freed b.addr = 0) :
    (SharedBox.drop h (SharedBox.fromBox b)).freed b.addr = 1 ∧
    (SharedBox.into_box (SharedBox.fromBox b) h).2.freed b.addr = 0 ∧
    (Box.drop (SharedBox.into_box (SharedBox.fromBox b) h).2
      (SharedBox.into_box (SharedBox.fromBox b) h).1).freed b.addr = 1 := by
  refine ⟨?_, ?_, ?_⟩ <;>
    simp [SharedBox.drop, SharedBox.fromBox, SharedBox.into_box, Box.drop,
      Heap.free, hfree]

/-- Witness for C2 at a concrete freshly allocated box. -/
theorem C2_free_exactly_once_witness :
    (Box.new (Heap.empty Nat) 7).2.freed (Box.new (Heap.empty Nat) 7).1.addr = 0 ∧
    ((SharedBox.drop (Box.new (Heap.empty Nat) 7).2
        (SharedBox.fromBox (Box.new (Heap.empty Nat) 7).1)).freed
        (Box.new (Heap.empty Nat) 7).1.addr = 1 ∧
     (SharedBox.into_box (SharedBox.fromBox (Box.new (Heap.empty Nat) 7).1)
        (Box.new (Heap.empty Nat) 7).2).2.freed (Box.new (Heap.empty Nat) 7).1.addr = 0 ∧
     (Box.drop
        (SharedBox.into_box (SharedBox.fromBox (Box.new (Heap.empty Nat) 7).1)
          (Box.new (Heap.empty Nat) 7).2).2
        (SharedBox.into_box (SharedBox.fromBox (Box.new (Heap.empty Nat) 7).1)
          (Box.new (Heap.empty Nat) 7).2).1).freed (Box.new (Heap.empty Nat) 7).1.addr = 1) :=
  ⟨by decide,
   C2_free_exactly_once Nat (Box.new (Heap.empty Nat) 7).2
     (Box.new (Heap.empty Nat) 7).1 (by decide)⟩

/-- Claim C3 counterexample: the Pointer impl for a raw const pointer does not
fail loudly on as_mut_ptr; at address 5 it silently returns the usable address 5
cast to a mutable pointer. -/
theorem C3_constPtr_no_panic_counterexample :
    Pointer.as_mut_ptr (PtrKind.constPtr 5 : PtrKind Nat) = Except.ok 5 := rfl

/-- Claim C3 amended: of the pointer views derived from an immutable source, only
the impl for a shared MaybeUninit reference panics with a diagnostic on
as_mut_ptr; the impl for a raw const pointer silently returns the same address
cast to a mutable pointer. -/
theorem C3_immutable_as_mut_ptr (T : Type) (a : Nat) :
    Pointer.as_mut_ptr (PtrKind.refMaybeUninit a : PtrKind T) =
      Except.error maybeUninitPanicMsg ∧
    Pointer.as_mut_ptr (PtrKind.constPtr a : PtrKind T) = Except.ok a := by
  exact ⟨rfl, rfl⟩

/-- Claim C4: in a checked build, assume aborts with an assertion failure exactly
when the predicate is false and returns normally when it is true; concretely,
with the sequence 1,4,7,9 the length-is-4 assumption succeeds and element 2 is
7, while an always-false assumption aborts. -/
theorem C4_assume_checked_semantics :
    (∀ p : Unit → Bool, assume p = Except.ok () ↔ p () = true) ∧
    (∀ p : Unit → Bool, assume p = Except.error "assertion failed: f" ↔ p () = false) ∧
    (assume (fun _ => ([1, 4, 7, 9] : List Int).length == 4) = Except.ok () ∧
      ([1, 4, 7, 9] : List Int).getD 2 0 = 7) ∧
    assume (fun _ => false) = Except.error "assertion failed: f" := by
  refine ⟨fun p => ?_, fun p => ?_, ⟨rfl, by decide⟩, rfl⟩ <;>
    cases hp : p () <;> simp [assume, hp]

/-- Claim C5: assume_some returns the contained value unchanged on a present
value; looking up key third in the given mapping and applying assume_some
yields 1256; in a checked build assume_some on an absent value aborts with an
assertion failure. -/
theorem C5_assume_some_semantics :
    (∀ (T : Type) (x : T), assume_some (some x) = Except.ok x) ∧
    assume_some (List.lookup "third"
      [("first", 64), ("second", 93), ("third", 1256), ("fourth", 5483)]) =
      Except.ok (1256 : Nat) ∧
    assume_some (none : Option Nat) = Except.error "assertion failed: self.is_some()" := by
  refine ⟨fun _ _ => rfl, rfl, rfl⟩

/-- Claim C6: addresses obtained by separate as_ptr calls refer to the same
memory, so a write through one is visible through the other; concretely,
starting from a boxed 0 and incrementing once through each of two separately
obtained addresses, converting back with into_box yields 2. -/
theorem C6_shared_mutation_visibility :
    (∀ (h : Heap Int) (s : SharedBox Int) (v : Int),
      (h.write (SharedBox.as_ptr s) v).mem (SharedBox.as_ptr s) = some v) ∧
    (Box.deref
      (SharedBox.into_box (SharedBox.fromBox (Box.new (Heap.empty Int) 0).1)
        (incThrough
          (incThrough (Box.new (Heap.empty Int) 0).2
            (SharedBox.as_ptr (SharedBox.fromBox (Box.new (Heap.empty Int) 0).1)))
          (SharedBox.as_ptr (SharedBox.fromBox (Box.new (Heap.empty Int) 0).1)))).2
      (SharedBox.into_box (SharedBox.fromBox (Box.new (Heap.empty Int) 0).1)
        (incThrough
          (incThrough (Box.new (Heap.empty Int) 0).2
            (SharedBox.as_ptr (SharedBox.fromBox (Box.new (Heap.empty Int) 0).1)))
          (SharedBox.as_ptr (SharedBox.fromBox (Box.new (Heap.empty Int) 0).1)))).1 =
      some 2) := by
  constructor
  · intro h s v
    simp [Heap.write]
  · decide

/-- Claim C7: swapping through guard-scoped dereferences with both pointers equal
(a self-swap) leaves the value stored at that address unchanged. -/
theorem C7_swap_self_noop (T : Type) (h : Heap T) (a : Nat) (v : T)
    (hv : h.mem a = some v) :
    (swap_ptr h a a).bind (fun h2 => h2.mem a) = some v := by
  simp [swap_ptr, Bind.get, Pointer.as_ptr, Heap.write, hv]

/-- Witness for C7 at a concrete heap holding 9 at the freshly allocated
address. -/
theorem C7_swap_self_noop_witness :
    (Box.new (Heap.empty Nat) 9).2.mem (Box.new (Heap.empty Nat) 9).1.addr = some 9 ∧
    (swap_ptr (Box.new (Heap.empty Nat) 9).2 (Box.new (Heap.empty Nat) 9).1.addr
      (Box.new (Heap.empty Nat) 9).1.addr).bind
      (fun h2 => h2.mem (Box.new (Heap.empty Nat) 9).1.addr) = some 9 :=
  ⟨by decide,
   C7_swap_self_noop Nat (Box.new (Heap.empty Nat) 9).2
     (Box.new (Heap.empty Nat) 9).1.addr 9 (by decide)⟩

/-- Claim C8: assume_none on an absent value returns normally with no effect; in
a checked build assume_none on a present value aborts with an assertion
failure. -/
theorem C8_assume_none_semantics :
    (∀ (T : Type), assume_none (none : Option T) = Except.ok ()) ∧
    (∀ (T : Type) (x : T),
      assume_none (some x) = Except.error "assertion failed: self.is_none()") :=
  ⟨fun _ => rfl, fun _ _ => rfl⟩

/-- Claim C9: write_with on a shared MaybeUninit reference panics before the
closure is evaluated and before any write: the heap carried out of the panic is
exactly the input heap and the outcome does not depend on the closure. -/
theorem C9_write_with_panics_before_closure (T : Type) (a : Nat) (h : Heap T)
    (f g : Unit → T) :
    Pointer.write_with (PtrKind.refMaybeUninit a : PtrKind T) f h =
      Except.error (maybeUninitPanicMsg, h) ∧
    Pointer.write_with (PtrKind.refMaybeUninit a : PtrKind T) f h =
      Pointer.write_with (PtrKind.refMaybeUninit a : PtrKind T) g h :=
  ⟨rfl, rfl⟩

/-- Claim C10: every Pointer impl whose as_mut_ptr does not panic (raw mutable,
raw const, NonNull, mutable MaybeUninit reference) yields a write address equal
to its read address. -/
theorem C10_read_write_addresses_coincide (T : Type) (a : Nat) :
    Pointer.as_mut_ptr (PtrKind.mutPtr a : PtrKind T) =
      Except.ok (Pointer.as_ptr (PtrKind.mutPtr a : PtrKind T)) ∧
    Pointer.as_mut_ptr (PtrKind.constPtr a : PtrKind T) =
      Except.ok (Pointer.as_ptr (PtrKind.constPtr a : PtrKind T)) ∧
    Pointer.as_mut_ptr (PtrKind.nonNull a : PtrKind T) =
      Except.ok (Pointer.as_ptr (PtrKind.nonNull a : PtrKind T)) ∧
    Pointer.as_mut_ptr (PtrKind.mutRefMaybeUninit a : PtrKind T) =
      Except.ok (Pointer.as_ptr (PtrKind.mutRefMaybeUninit a : PtrKind T)) :=
  ⟨rfl, rfl, rfl, rfl⟩

end Unsafer
